import Mathlib

/-!
Shallow embedding of the PS-ROI pooling operator of RFCN-Pytorch
(`utils/psroi_module.py`), together with a model of the device kernel
bodies (`PSROIPoolForward` / `PSROIPoolBackward` from `utils/psroi_cuda.py`,
whose source is not among the files here) taken from the specification.

Modelling conventions:
- tensors are a shape tuple plus a total data function over natural
  indices with rational entries;
- Python exceptions are `Except` results; a method that mutates `self`
  before possibly raising returns the mutated object next to the result;
- the device launch is recorded as the grid/block sizes the wrapper
  computes, and the kernel itself as a pure per-element function;
- the gradient scatter of the backward kernel is an accumulation,
  starting from a zero-initialized tensor, of per-element contributions
  (addition is commutative and associative, so this fold also models the
  unordered atomic accumulation of the device).
-/

/-- Errors raised by the module (both are `ValueError` in the Python
source), labelled here by their raise site. -/
inductive RoIError where
  | groupSizeMismatch
  | channelNotDivisible
deriving DecidableEq

/-- Threads of each block (`CUDA_NUM_THREADS = 1024`). -/
def CUDA_NUM_THREADS : Nat := 1024

/-- `GET_BLOCKS(N, K=CUDA_NUM_THREADS) = (N + K - 1) // K`. The Python
default argument `K = CUDA_NUM_THREADS` is passed explicitly at every
Lean call site. -/
def GET_BLOCKS (N K : Nat) : Nat := (N + K - 1) / K

/-- The configuration object `psRoI_Info`: its `__init__` sets all four
parameters to `None`; `set_para` fills them in. -/
structure psRoI_Info where
  outh : Option Nat
  outw : Option Nat
  spatial_scale : Option ℚ
  group_size : Option Nat
deriving DecidableEq

/-- `psRoI_Info.__init__`: every field starts as `None` (the kernel
loading it also performs is outside the model). -/
def psRoI_Info.init : psRoI_Info :=
  { outh := none, outw := none, spatial_scale := none, group_size := none }

/-- `psRoI_Info.set_para(pool_size, spatial_scale, group_size=None)`.
The Python method first assigns `outh`, `outw`, `spatial_scale`, then
checks `group_size`; on the mismatch branch it raises after those
assignments, so the returned state carries them even when the result is
an error. -/
def psRoI_Info.set_para (self : psRoI_Info) (pool_size : Nat × Nat)
    (spatial_scale : ℚ) (group_size : Option Nat) :
    psRoI_Info × Except RoIError Unit :=
  let self := { self with outh := some pool_size.1, outw := some pool_size.2,
                          spatial_scale := some spatial_scale }
  match group_size with
  | none =>
      if pool_size.1 ≠ pool_size.2 then
        (self, Except.error RoIError.groupSizeMismatch)
      else
        ({ self with group_size := some pool_size.1 }, Except.ok ())
  | some g => ({ self with group_size := some g }, Except.ok ())

/-- A Python value as seen by `t_ntuple`: either a non-iterable scalar
or an iterable of numbers. -/
inductive PyVal where
  | scalar (x : Nat)
  | iter (xs : List Nat)
deriving DecidableEq

/-- `t_ntuple(n)`: an iterable is returned unchanged, a non-iterable `x`
becomes `tuple(repeat(x, n))`. -/
def t_ntuple (n : Nat) (x : PyVal) : PyVal :=
  match x with
  | .iter xs => .iter xs
  | .scalar v => .iter (List.replicate n v)

/-- `t_pair = t_ntuple(2)`. -/
def t_pair (x : PyVal) : PyVal := t_ntuple 2 x

/-- The underlying list of a `PyVal`, used for the `pool_size[0]`,
`pool_size[1]` subscripts. -/
def PyVal.asList (v : PyVal) : List Nat :=
  match v with
  | .scalar x => [x]
  | .iter xs => xs

/-- `PSRoIPooling2D.__init__(pool_size, spatial_scale, group_size=None)`:
normalizes `pool_size` through `t_pair`, builds a fresh `psRoI_Info` and
calls `set_para` on it. Returns the resulting info object and the
`set_para` outcome. -/
def PSRoIPooling2D.mk_info (pool_size : PyVal) (spatial_scale : ℚ)
    (group_size : Option Nat) : psRoI_Info × Except RoIError Unit :=
  let ps := (t_pair pool_size).asList
  psRoI_Info.init.set_para (ps.getD 0 0, ps.getD 1 0) spatial_scale group_size

/-- The four parameters of a `psRoI_Info` after a successful `set_para`,
as read by `psRoI.forward` (`Info.outh`, `Info.outw`,
`Info.spatial_scale`, `Info.group_size`). -/
structure RoIConfig where
  outh : Nat
  outw : Nat
  spatial_scale : ℚ
  group_size : Nat
deriving DecidableEq

/-- One row of the `rois` tensor: `[batch_ind, x_min, y_min, x_max, y_max]`. -/
structure Roi where
  batch_ind : Nat
  xmin : ℚ
  ymin : ℚ
  xmax : ℚ
  ymax : ℚ
deriving DecidableEq

/-- The input feature map: a 4D tensor of shape `(B, C, H, W)`. -/
structure FeatureMap where
  B : Nat
  C : Nat
  H : Nat
  W : Nat
  data : Nat → Nat → Nat → Nat → ℚ

/-- A generic 4D tensor: a shape and a total data function. -/
structure Tensor4 where
  shape : Nat × Nat × Nat × Nat
  data : Nat → Nat → Nat → Nat → ℚ

/-- The all-zero tensor of a given shape (`t.zeros(...)`). -/
def zeros4 (shape : Nat × Nat × Nat × Nat) : Tensor4 :=
  { shape := shape, data := fun _ _ _ _ => 0 }

/-- The clipped pixel window of one pooling bin. -/
structure BinWindow where
  hstart : ℤ
  hend : ℤ
  wstart : ℤ
  wend : ℤ
deriving DecidableEq

/-- A bin window is empty when `hstart >= hend` or `wstart >= wend`. -/
def BinWindow.empty (g : BinWindow) : Bool :=
  g.hend ≤ g.hstart || g.wend ≤ g.wstart

/-- Area `(hend - hstart) * (wend - wstart)` of a bin window. -/
def BinWindow.area (g : BinWindow) : ℤ :=
  (g.hend - g.hstart) * (g.wend - g.wstart)

/-- Modelled from the spec: the region scaling and bin-window
computation of the device kernels (`utils/psroi_cuda.py` is not among
the sources). Region corners are rounded into feature-map space, the
region is at least 1 pixel in each direction, bin extents are
real-valued, and the window of bin `(ph, pw)` is floored at its start,
ceiled at its end and clipped to `[0,H] × [0,W]`. -/
def binWindow (H W : Nat) (roi : Roi) (spatial_scale : ℚ)
    (outh outw ph pw : Nat) : BinWindow :=
  let rs_w : ℤ := round (roi.xmin * spatial_scale)
  let rs_h : ℤ := round (roi.ymin * spatial_scale)
  let re_w : ℤ := round (roi.xmax * spatial_scale)
  let re_h : ℤ := round (roi.ymax * spatial_scale)
  let roi_w : ℤ := max (re_w - rs_w) 1
  let roi_h : ℤ := max (re_h - rs_h) 1
  let bin_w : ℚ := (roi_w : ℚ) / (outw : ℚ)
  let bin_h : ℚ := (roi_h : ℚ) / (outh : ℚ)
  { hstart := max 0 (min ⌊(rs_h : ℚ) + (ph : ℚ) * bin_h⌋ (H : ℤ))
    hend := max 0 (min ⌈(rs_h : ℚ) + ((ph : ℚ) + 1) * bin_h⌉ (H : ℤ))
    wstart := max 0 (min ⌊(rs_w : ℚ) + (pw : ℚ) * bin_w⌋ (W : ℤ))
    wend := max 0 (min ⌈(rs_w : ℚ) + ((pw : ℚ) + 1) * bin_w⌉ (W : ℤ)) }

/-- Modelled from the spec: the position-sensitive source-channel
selection of the forward kernel,
`c_src = (ph * group_size + pw) * out_dim + c_out`. -/
def c_srcOf (group_size out_dim c_out ph pw : Nat) : Nat :=
  (ph * group_size + pw) * out_dim + c_out

/-- Modelled from the spec: one element of `PSROIPoolForward`. Returns
the pooled value and the source channel recorded into the channel
mapping. An empty window yields value 0; otherwise the value is the
arithmetic mean of the feature map over the window at channel `c_src`. -/
def forwardElement (x : FeatureMap) (roi : Roi) (spatial_scale : ℚ)
    (outh outw group_size out_dim c_out ph pw : Nat) : ℚ × Nat :=
  let g := binWindow x.H x.W roi spatial_scale outh outw ph pw
  let c_src := c_srcOf group_size out_dim c_out ph pw
  if g.empty then (0, c_src)
  else
    ((∑ hh ∈ Finset.Ico g.hstart g.hend, ∑ ww ∈ Finset.Ico g.wstart g.wend,
        x.data roi.batch_ind c_src hh.toNat ww.toNat) / (g.area : ℚ),
     c_src)

/-- Modelled from the spec: decomposition of a flat kernel index into
`(n, c_out, ph, pw)` over the `N × out_dim × outH × outW` index space,
`pw` fastest. -/
def decodeIdx (out_dim outh outw i : Nat) : Nat × Nat × Nat × Nat :=
  (i / (outw * outh * out_dim), i / (outw * outh) % out_dim, i / outw % outh, i % outw)

/-- The values saved by `ctx.save_for_backward`: the int tensor
`[count, N, out_dim, outh, outw]`, the input size, the spatial scale,
the rois and the channel mapping. -/
structure SavedForwardState where
  count : Nat
  N : Nat
  out_dim : Nat
  outh : Nat
  outw : Nat
  in_size : Nat × Nat × Nat × Nat
  spatial_scale : ℚ
  rois : List Roi
  mapping_channel : List Nat

/-- The observable outcome of one successful `psRoI.forward` call: the
output tensor, the saved backward state, and the launch geometry. -/
structure ForwardResult where
  output : Tensor4
  saved : SavedForwardState
  grid : Nat
  block : Nat

/-- Out-of-range subscripts of the roi list fall back to this value (a
valid call never reaches it). -/
def defaultRoi : Roi := { batch_ind := 0, xmin := 0, ymin := 0, xmax := 0, ymax := 0 }

/-- The body of `psRoI.forward` after the divisibility check:
`out_dim = C // group_size²`, the output tensor of shape
`(N, out_dim, outh, outw)`, `count = output.numel()`, the channel
mapping of length `count`, the saved state, and a launch of
`GET_BLOCKS(count)` blocks of `CUDA_NUM_THREADS` threads. The
per-element values and mapping entries come from the spec-modelled
kernel (`forwardElement`, `c_srcOf`). -/
def psRoI.forwardResult (x : FeatureMap) (rois : List Roi) (info : RoIConfig) :
    ForwardResult :=
  let N := rois.length
  let out_dim := x.C / (info.group_size * info.group_size)
  let count := N * out_dim * info.outh * info.outw
  { output :=
      { shape := (N, out_dim, info.outh, info.outw)
        data := fun n c_out ph pw =>
          (forwardElement x (rois.getD n defaultRoi) info.spatial_scale
            info.outh info.outw info.group_size out_dim c_out ph pw).1 }
    saved :=
      { count := count
        N := N
        out_dim := out_dim
        outh := info.outh
        outw := info.outw
        in_size := (x.B, x.C, x.H, x.W)
        spatial_scale := info.spatial_scale
        rois := rois
        mapping_channel :=
          (List.range count).map fun i =>
            let d := decodeIdx out_dim info.outh info.outw i
            c_srcOf info.group_size out_dim d.2.1 d.2.2.1 d.2.2.2 }
    grid := GET_BLOCKS count CUDA_NUM_THREADS
    block := CUDA_NUM_THREADS }

/-- `psRoI.forward(ctx, x, rois, Info)`: raises when `C` is not a
multiple of `group_size²`, before the output tensor is allocated;
otherwise produces the forward result. -/
def psRoI.forward (x : FeatureMap) (rois : List Roi) (info : RoIConfig) :
    Except RoIError ForwardResult :=
  if x.C % (info.group_size * info.group_size) ≠ 0 then
    Except.error RoIError.channelNotDivisible
  else
    Except.ok (psRoI.forwardResult x rois info)

/-- Modelled from the spec: the contribution of gradient-output element
`i` of `PSROIPoolBackward` to input-gradient cell `(b, c, h, w)`. The
bin window is recomputed from the saved rois, scale and output
geometry; the source channel is replayed from the saved channel
mapping; an empty window contributes nothing; otherwise the element
distributes `grad_output / bin_area` over its window at channel
`c_src`. -/
def elemContrib (saved : SavedForwardState) (grad_output : Tensor4)
    (i b c h w : Nat) : ℚ :=
  let d := decodeIdx saved.out_dim saved.outh saved.outw i
  let n := d.1
  let c_out := d.2.1
  let ph := d.2.2.1
  let pw := d.2.2.2
  let roi := saved.rois.getD n defaultRoi
  let g := binWindow saved.in_size.2.2.1 saved.in_size.2.2.2 roi
    saved.spatial_scale saved.outh saved.outw ph pw
  let c_src := saved.mapping_channel.getD i 0
  if g.empty then 0
  else if b = roi.batch_ind ∧ c = c_src ∧ g.hstart ≤ (h : ℤ) ∧ (h : ℤ) < g.hend ∧
          g.wstart ≤ (w : ℤ) ∧ (w : ℤ) < g.wend then
    grad_output.data n c_out ph pw / (g.area : ℚ)
  else 0

/-- One accumulation step of the backward scatter: add the contribution
of element `i` into the gradient tensor. -/
def accumStep (saved : SavedForwardState) (grad_output : Tensor4)
    (g : Tensor4) (i : Nat) : Tensor4 :=
  { shape := g.shape
    data := fun b c h w => g.data b c h w + elemContrib saved grad_output i b c h w }

/-- The input gradient of `psRoI.backward`: a freshly allocated zero
tensor of the saved input size (`t.zeros(in_size)`), accumulated over
the `count` gradient-output elements. -/
def psRoI.gradInput (saved : SavedForwardState) (grad_output : Tensor4) : Tensor4 :=
  (List.range saved.count).foldl (accumStep saved grad_output) (zeros4 saved.in_size)

/-- `psRoI.backward(ctx, grad_output)`: with an absent `grad_output` it
returns `(None, None, None)` at once; otherwise it returns the input
gradient and `None` for the roi and info arguments. -/
def psRoI.backward (grad_output : Option Tensor4) (saved : SavedForwardState) :
    Option Tensor4 × Option Unit × Option Unit :=
  match grad_output with
  | none => (none, none, none)
  | some go => (some (psRoI.gradInput saved go), none, none)

/-! Concrete inputs used by the witness and counterexample theorems. -/

/-- A feature map of shape `(1, Cn, 4, 4)` whose channel `c` is filled
with the constant value `c + 1`. -/
def fmEx (Cn : Nat) : FeatureMap :=
  { B := 1, C := Cn, H := 4, W := 4, data := fun _ c _ _ => (c : ℚ) + 1 }

/-- A 2x2 pooling configuration with `group_size = 2` and unit scale. -/
def cfgEx : RoIConfig := { outh := 2, outw := 2, spatial_scale := 1, group_size := 2 }

/-- A 2x2 pooling configuration with `group_size = 1` and unit scale. -/
def cfgG1 : RoIConfig := { outh := 2, outw := 2, spatial_scale := 1, group_size := 1 }

/-- A 1x1 pooling configuration with `group_size = 1` and unit scale. -/
def cfg11 : RoIConfig := { outh := 1, outw := 1, spatial_scale := 1, group_size := 1 }

/-- A region covering the whole 4x4 feature map. -/
def roiEx : Roi := { batch_ind := 0, xmin := 0, ymin := 0, xmax := 4, ymax := 4 }

/-- A degenerate region lying entirely outside a 4x4 feature map: every
bin window clips to the empty window `[4,4) × [4,4)`. -/
def roiFar : Roi := { batch_ind := 0, xmin := 100, ymin := 100, xmax := 100, ymax := 100 }

/-- A concrete gradient-output tensor. -/
def goEx : Tensor4 := zeros4 (1, 1, 2, 2)

/-! Helper lemmas (shared; not tied to any one claim). -/

/-- Reading a mapped range list below its length yields the mapped value. -/
theorem getD_range_map (f : Nat → Nat) (n i : Nat) (h : i < n) :
    ((List.range n).map f).getD i 0 = f i := by
  rw [List.getD_eq_getElem?_getD]
  simp [List.getElem?_map, List.getElem?_range, h]

/-- The accumulation fold of the backward scatter never changes the
shape of the gradient tensor. -/
theorem foldl_accumStep_shape (saved : SavedForwardState) (go : Tensor4) :
    ∀ (l : List Nat) (g : Tensor4), (l.foldl (accumStep saved go) g).shape = g.shape := by
  intro l
  induction l with
  | nil => intro g; rfl
  | cons a t ih => intro g; exact (ih _).trans rfl

/-- Folding the accumulation steps over `List.range n` adds the sum of
the per-element contributions to every cell. -/
theorem foldl_accumStep_data (saved : SavedForwardState) (go : Tensor4)
    (b c h w : Nat) :
    ∀ (n : Nat) (g : Tensor4),
      ((List.range n).foldl (accumStep saved go) g).data b c h w =
        g.data b c h w + ∑ i ∈ Finset.range n, elemContrib saved go i b c h w := by
  intro n
  induction n with
  | zero => intro g; simp
  | succ m ih =>
      intro g
      rw [List.range_succ, List.foldl_append]
      simp only [List.foldl_cons, List.foldl_nil, accumStep, ih, Finset.sum_range_succ]
      ring

/-! Claim theorems. -/

/-- C1: if the channel count `C` of the feature map is not divisible by
`group_size²`, `psRoI.forward` fails before any output is produced (the
error result carries no output, so no partial output is observable);
otherwise the call proceeds and `out_dim = C / group_size²`. -/
theorem C1_forward_divisibility (x : FeatureMap) (rois : List Roi) (info : RoIConfig) :
    (x.C % (info.group_size * info.group_size) ≠ 0 →
      psRoI.forward x rois info = Except.error RoIError.channelNotDivisible) ∧
    (x.C % (info.group_size * info.group_size) = 0 →
      psRoI.forward x rois info = Except.ok (psRoI.forwardResult x rois info) ∧
      (psRoI.forwardResult x rois info).saved.out_dim =
        x.C / (info.group_size * info.group_size)) := by
  constructor
  · intro h
    simp [psRoI.forward, h]
  · intro h
    exact ⟨by simp [psRoI.forward, h], rfl⟩

/-- C1 witness: with 5 channels and `group_size = 2` the call fails;
with 4 channels it succeeds and `out_dim = 1`. -/
theorem C1_forward_divisibility_witness :
    psRoI.forward (fmEx 5) [roiEx] cfgEx = Except.error RoIError.channelNotDivisible ∧
    (psRoI.forwardResult (fmEx 4) [roiEx] cfgEx).saved.out_dim = 1 := by
  refine ⟨(C1_forward_divisibility (fmEx 5) [roiEx] cfgEx).1 (by decide), ?_⟩
  have h := ((C1_forward_divisibility (fmEx 4) [roiEx] cfgEx).2 (by decide)).2
  simpa using h

/-- C2 counterexample: with `pool_size = (1, 2)` and `group_size`
omitted, `set_para` does fail, but configuration state has already been
created: the object differs from the fresh one (its `outh`, `outw` and
`spatial_scale` were assigned before the raise), contradicting the
claim that no configuration state is created. -/
theorem C2_set_para_counterexample :
    (psRoI_Info.init.set_para (1, 2) 1 none).2 = Except.error RoIError.groupSizeMismatch ∧
    (psRoI_Info.init.set_para (1, 2) 1 none).1 ≠ psRoI_Info.init := by
  refine ⟨rfl, fun hc => ?_⟩
  have hfield := congrArg psRoI_Info.outh hc
  simp [psRoI_Info.set_para, psRoI_Info.init] at hfield

/-- C2 (amended): with `group_size` omitted and `outH ≠ outW`,
`set_para` fails with the configuration error, leaving `group_size`
unassigned but with `outh`, `outw`, `spatial_scale` already stored
(partial state is created); with `outH = outW` it succeeds and sets
`group_size = outH`; an explicit `group_size` is stored unchanged with
no equality requirement on `outH` and `outW`. -/
theorem C2_set_para_spec (info : psRoI_Info) (pool_size : Nat × Nat) (ss : ℚ) :
    (pool_size.1 ≠ pool_size.2 →
      info.set_para pool_size ss none =
        ({ info with outh := some pool_size.1, outw := some pool_size.2,
                     spatial_scale := some ss },
         Except.error RoIError.groupSizeMismatch)) ∧
    (pool_size.1 = pool_size.2 →
      info.set_para pool_size ss none =
        ({ info with outh := some pool_size.1, outw := some pool_size.2,
                     spatial_scale := some ss, group_size := some pool_size.1 },
         Except.ok ())) ∧
    (∀ g : Nat,
      info.set_para pool_size ss (some g) =
        ({ info with outh := some pool_size.1, outw := some pool_size.2,
                     spatial_scale := some ss, group_size := some g },
         Except.ok ())) := by
  refine ⟨fun h => ?_, fun h => ?_, fun g => ?_⟩
  · simp [psRoI_Info.set_para, h]
  · simp [psRoI_Info.set_para, h]
  · simp [psRoI_Info.set_para]

/-- C2 witness: the amended theorem applied at `pool_size = (1, 2)`,
`(3, 3)` and an explicit `group_size = 7`. -/
theorem C2_set_para_spec_witness :
    psRoI_Info.init.set_para (1, 2) 1 none =
      ({ psRoI_Info.init with outh := some 1, outw := some 2, spatial_scale := some 1 },
       Except.error RoIError.groupSizeMismatch) ∧
    psRoI_Info.init.set_para (3, 3) 1 none =
      ({ psRoI_Info.init with outh := some 3, outw := some 3, spatial_scale := some 1,
                              group_size := some 3 },
       Except.ok ()) ∧
    psRoI_Info.init.set_para (2, 5) 1 (some 7) =
      ({ psRoI_Info.init with outh := some 2, outw := some 5, spatial_scale := some 1,
                              group_size := some 7 },
       Except.ok ()) :=
  ⟨(C2_set_para_spec psRoI_Info.init (1, 2) 1).1 (by decide),
   (C2_set_para_spec psRoI_Info.init (3, 3) 1).2.1 (by decide),
   (C2_set_para_spec psRoI_Info.init (2, 5) 1).2.2 7⟩

/-- C4: an absent incoming gradient makes `psRoI.backward` short-circuit
and return the `(None, None, None)` triple at once, the zero-gradient
no-op of PyTorch autograd, with no computation and no error. -/
theorem C4_backward_none (saved : SavedForwardState) :
    psRoI.backward none saved = (none, none, none) := rfl

/-- C8: whatever the incoming gradient, the second and third return
slots of `psRoI.backward` (the gradients for the roi argument and the
configuration argument) are always `None`. -/
theorem C8_backward_only_input_grad (grad_output : Option Tensor4)
    (saved : SavedForwardState) :
    (psRoI.backward grad_output saved).2.1 = none ∧
    (psRoI.backward grad_output saved).2.2 = none := by
  cases grad_output <;> simp [psRoI.backward]

/-- C10: `t_pair` maps a non-iterable `x` to the pair `(x, x)` and
returns an iterable unchanged; hence a scalar `pool_size = p` passed to
the module constructor configures `outh = outw = p` (and, with
`group_size` omitted, `group_size = p`). -/
theorem C10_t_pair (x p : Nat) (xs : List Nat) (ss : ℚ) :
    t_pair (PyVal.scalar x) = PyVal.iter [x, x] ∧
    t_pair (PyVal.iter xs) = PyVal.iter xs ∧
    (PSRoIPooling2D.mk_info (PyVal.scalar p) ss none).1.outh = some p ∧
    (PSRoIPooling2D.mk_info (PyVal.scalar p) ss none).1.outw = some p ∧
    (PSRoIPooling2D.mk_info (PyVal.scalar p) ss none).1.group_size = some p ∧
    (PSRoIPooling2D.mk_info (PyVal.scalar p) ss none).2 = Except.ok () := by
  refine ⟨rfl, rfl, ?_, ?_, ?_, ?_⟩ <;>
    simp [PSRoIPooling2D.mk_info, t_pair, t_ntuple, PyVal.asList,
      psRoI_Info.set_para, psRoI_Info.init]

/-- C3: a successful forward call returns an output tensor of shape
`(N, out_dim, outH, outW)`; backward on it returns a gradient tensor
that is freshly built starting from the zero tensor, carries exactly
the saved feature-map shape `(B, C, H, W)`, and whose every cell is the
accumulated sum of the per-element contributions. -/
theorem C3_shape_contract (x : FeatureMap) (rois : List Roi) (info : RoIConfig)
    (h : x.C % (info.group_size * info.group_size) = 0) :
    psRoI.forward x rois info = Except.ok (psRoI.forwardResult x rois info) ∧
    (psRoI.forwardResult x rois info).output.shape =
      (rois.length, x.C / (info.group_size * info.group_size), info.outh, info.outw) ∧
    ∀ go : Tensor4,
      psRoI.backward (some go) (psRoI.forwardResult x rois info).saved =
        (some (psRoI.gradInput (psRoI.forwardResult x rois info).saved go), none, none) ∧
      (psRoI.gradInput (psRoI.forwardResult x rois info).saved go).shape =
        (x.B, x.C, x.H, x.W) ∧
      ∀ b c hh ww : Nat,
        (psRoI.gradInput (psRoI.forwardResult x rois info).saved go).data b c hh ww =
          ∑ i ∈ Finset.range (psRoI.forwardResult x rois info).saved.count,
            elemContrib (psRoI.forwardResult x rois info).saved go i b c hh ww := by
  refine ⟨by simp [psRoI.forward, h], rfl, fun go => ⟨rfl, ?_, ?_⟩⟩
  · exact (foldl_accumStep_shape _ _ _ _).trans rfl
  · intro b c hh ww
    rw [psRoI.gradInput, foldl_accumStep_data]
    simp [zeros4]

/-- C3 witness: on the concrete 4-channel feature map the output shape
is `(1, 1, 2, 2)` and the gradient shape is the feature-map shape
`(1, 4, 4, 4)`. -/
theorem C3_shape_contract_witness :
    (psRoI.forwardResult (fmEx 4) [roiEx] cfgEx).output.shape = (1, 1, 2, 2) ∧
    (psRoI.gradInput (psRoI.forwardResult (fmEx 4) [roiEx] cfgEx).saved goEx).shape =
      (1, 4, 4, 4) := by
  have h := C3_shape_contract (fmEx 4) [roiEx] cfgEx (by decide)
  exact ⟨by simpa using h.2.1, by simpa using (h.2.2 goEx).2.1⟩

/-- C7: a forward call saves exactly the element count
`count = N * out_dim * outH * outW`, `N`, `out_dim`, `outH`, `outW`,
the original feature-map shape, the spatial scale, the regions and the
channel mapping, the latter a flat list of length `count`; backward is
a function of this saved state and the incoming gradient alone. -/
theorem C7_saved_state (x : FeatureMap) (rois : List Roi) (info : RoIConfig)
    (h : x.C % (info.group_size * info.group_size) = 0) :
    psRoI.forward x rois info = Except.ok (psRoI.forwardResult x rois info) ∧
    (psRoI.forwardResult x rois info).saved.count =
      rois.length * (x.C / (info.group_size * info.group_size)) * info.outh * info.outw ∧
    (psRoI.forwardResult x rois info).saved.N = rois.length ∧
    (psRoI.forwardResult x rois info).saved.out_dim =
      x.C / (info.group_size * info.group_size) ∧
    (psRoI.forwardResult x rois info).saved.outh = info.outh ∧
    (psRoI.forwardResult x rois info).saved.outw = info.outw ∧
    (psRoI.forwardResult x rois info).saved.in_size = (x.B, x.C, x.H, x.W) ∧
    (psRoI.forwardResult x rois info).saved.spatial_scale = info.spatial_scale ∧
    (psRoI.forwardResult x rois info).saved.rois = rois ∧
    (psRoI.forwardResult x rois info).saved.mapping_channel.length =
      (psRoI.forwardResult x rois info).saved.count := by
  refine ⟨by simp [psRoI.forward, h], rfl, rfl, rfl, rfl, rfl, rfl, rfl, rfl, ?_⟩
  simp [psRoI.forwardResult]

/-- C7 witness: on the concrete 4-channel input the saved element count
is `1 * 1 * 2 * 2 = 4` and the channel mapping has length 4. -/
theorem C7_saved_state_witness :
    (psRoI.forwardResult (fmEx 4) [roiEx] cfgEx).saved.count = 4 ∧
    (psRoI.forwardResult (fmEx 4) [roiEx] cfgEx).saved.mapping_channel.length = 4 := by
  have h := C7_saved_state (fmEx 4) [roiEx] cfgEx (by decide)
  exact ⟨by simpa using h.2.1, by simpa using h.2.2.2.2.2.2.2.2.2⟩

/-- C9: `GET_BLOCKS(n)` with the default 1024 threads per block equals
`⌈n / 1024⌉`, the launched grid covers the whole index space
(`blocks * 1024 ≥ n`), and a forward call launches over exactly
`count = N * out_dim * outH * outW` elements with grid
`GET_BLOCKS(count)`. -/
theorem C9_dispatcher (n : Nat) (x : FeatureMap) (rois : List Roi) (info : RoIConfig) :
    (GET_BLOCKS n CUDA_NUM_THREADS : ℤ) = ⌈(n : ℚ) / (CUDA_NUM_THREADS : ℚ)⌉ ∧
    n ≤ GET_BLOCKS n CUDA_NUM_THREADS * CUDA_NUM_THREADS ∧
    (psRoI.forwardResult x rois info).grid =
      GET_BLOCKS ((psRoI.forwardResult x rois info).saved.count) CUDA_NUM_THREADS ∧
    (psRoI.forwardResult x rois info).saved.count =
      rois.length * (x.C / (info.group_size * info.group_size)) * info.outh * info.outw ∧
    (psRoI.forwardResult x rois info).saved.count ≤
      (psRoI.forwardResult x rois info).grid * CUDA_NUM_THREADS := by
  have hblocks : ∀ m : Nat, m ≤ GET_BLOCKS m CUDA_NUM_THREADS * CUDA_NUM_THREADS := by
    intro m
    simp only [GET_BLOCKS, CUDA_NUM_THREADS]
    omega
  refine ⟨?_, hblocks n, rfl, rfl, hblocks _⟩
  show (((n + CUDA_NUM_THREADS - 1) / CUDA_NUM_THREADS : ℕ) : ℤ) = _
  have hK : CUDA_NUM_THREADS = 1024 := rfl
  rw [hK]
  have harg : n + 1024 - 1 = n + 1023 := rfl
  rw [harg]
  obtain ⟨q, hq⟩ : ∃ q, (n + 1023) / 1024 = q := ⟨_, rfl⟩
  rw [hq]
  symm
  push_cast
  rw [Int.ceil_eq_iff]
  have h1 : q * 1024 < n + 1024 := by omega
  have h2 : n ≤ q * 1024 := by omega
  constructor
  · rw [lt_div_iff₀ (by norm_num : (0 : ℚ) < 1024)]
    have h1q : (q : ℚ) * 1024 < (n : ℚ) + 1024 := by exact_mod_cast h1
    push_cast
    linarith
  · rw [div_le_iff₀ (by norm_num : (0 : ℚ) < 1024)]
    have h2q : (n : ℚ) ≤ (q : ℚ) * 1024 := by exact_mod_cast h2
    push_cast
    linarith


/-- Both branches of the forward kernel record the same source channel. -/
theorem forwardElement_snd (x : FeatureMap) (roi : Roi) (ss : ℚ)
    (outh outw gs od c_out ph pw : Nat) :
    (forwardElement x roi ss outh outw gs od c_out ph pw).2 =
      c_srcOf gs od c_out ph pw := by
  rcases Bool.eq_false_or_eq_true ((binWindow x.H x.W roi ss outh outw ph pw).empty)
    with hb | hb <;> simp [forwardElement, hb]

/-- C5 counterexample: with `group_size = 1` on a 2x2 pooled grid
(1 channel, so `out_dim = 1`), the output element `(n = 0, c_out = 0,
ph = 1, pw = 0)` — flat index 2 — records source channel 1, not
`c_out = 0`: the recorded mapping and the per-element kernel both give
`c_src = (1 * 1 + 0) * 1 + 0 = 1`, so with `group_size = 1` the mapping
is not `c_src = c_out` for every bin, refuting the reduction to plain
per-channel pooling as stated. -/
theorem C5_reduction_counterexample :
    cfgG1.group_size = 1 ∧
    (psRoI.forwardResult (fmEx 1) [roiEx] cfgG1).saved.mapping_channel.getD 2 0 = 1 ∧
    (forwardElement (fmEx 1) roiEx 1 2 2 1 1 0 1 0).2 = 1 ∧
    (forwardElement (fmEx 1) roiEx 1 2 2 1 1 0 1 0).2 ≠ 0 := by
  refine ⟨rfl, by decide, ?_, ?_⟩ <;>
    simp [forwardElement_snd, c_srcOf]

/-- C5 (amended): every output element records source channel
`c_src = (ph * group_size + pw) * out_dim + c_out`, and entry `i` of
the saved channel mapping is exactly `c_src` of the decoded index
`(n, c_out, ph, pw)`; the reduction `c_src = c_out` for every bin under
`group_size = 1` holds when the pooled grid is 1x1 (`outH = outW = 1`,
the configuration `set_para` produces when `group_size` is omitted),
but not for larger grids. -/
theorem C5_channel_mapping (x : FeatureMap) (rois : List Roi) (info : RoIConfig)
    (roi : Roi) (c_out ph pw i : Nat)
    (hi : i < (psRoI.forwardResult x rois info).saved.count) :
    (forwardElement x roi info.spatial_scale info.outh info.outw info.group_size
        (x.C / (info.group_size * info.group_size)) c_out ph pw).2 =
      (ph * info.group_size + pw) * (x.C / (info.group_size * info.group_size)) + c_out ∧
    (psRoI.forwardResult x rois info).saved.mapping_channel.getD i 0 =
      c_srcOf info.group_size (x.C / (info.group_size * info.group_size))
        (decodeIdx (x.C / (info.group_size * info.group_size)) info.outh info.outw i).2.1
        (decodeIdx (x.C / (info.group_size * info.group_size)) info.outh info.outw i).2.2.1
        (decodeIdx (x.C / (info.group_size * info.group_size)) info.outh info.outw i).2.2.2 ∧
    (info.group_size = 1 → info.outh = 1 → info.outw = 1 →
      ph < info.outh → pw < info.outw →
      (forwardElement x roi info.spatial_scale info.outh info.outw info.group_size
          (x.C / (info.group_size * info.group_size)) c_out ph pw).2 = c_out) := by
  refine ⟨(forwardElement_snd _ _ _ _ _ _ _ _ _ _).trans rfl, ?_, ?_⟩
  · exact getD_range_map _ _ _ hi
  · intro hgs hh hw hph hpw
    rw [forwardElement_snd]
    have hph0 : ph = 0 := by omega
    have hpw0 : pw = 0 := by omega
    simp [c_srcOf, hph0, hpw0]

/-- C5 witness: the amended theorem applied on the 4-channel input with
`group_size = 2` (formula and mapping entry at flat index 2) and on the
1-channel input with the 1x1 grid and `group_size = 1` (reduction). -/
theorem C5_channel_mapping_witness :
    (forwardElement (fmEx 4) roiEx 1 2 2 2 1 0 1 0).2 = 2 ∧
    (psRoI.forwardResult (fmEx 4) [roiEx] cfgEx).saved.mapping_channel.getD 2 0 = 2 ∧
    (forwardElement (fmEx 1) roiEx 1 1 1 1 1 0 0 0).2 = 0 := by
  have h1 := C5_channel_mapping (fmEx 4) [roiEx] cfgEx roiEx 0 1 0 2 (by decide)
  have h2 := C5_channel_mapping (fmEx 1) [roiEx] cfg11 roiEx 0 0 0 0 (by decide)
  refine ⟨?_, ?_, ?_⟩
  · simpa [cfgEx, fmEx] using h1.1
  · simpa [cfgEx, fmEx, decodeIdx, c_srcOf] using h1.2.1
  · simpa [cfg11, fmEx] using h2.2.2 rfl rfl rfl (by decide) (by decide)

/-- C6: when the clipped bin window is empty (`hstart >= hend` or
`wstart >= wend`), the forward kernel yields exactly 0 for that element
while still recording `c_src` in the channel mapping (the model is
total over the rationals, so no crash and no NaN value can arise), and
the matching backward element contributes zero gradient to every cell
of the input gradient. -/
theorem C6_empty_bin (x : FeatureMap) (roi : Roi) (ss : ℚ)
    (outh outw gs od c_out ph pw : Nat)
    (hemp : (binWindow x.H x.W roi ss outh outw ph pw).empty = true) :
    forwardElement x roi ss outh outw gs od c_out ph pw =
      (0, c_srcOf gs od c_out ph pw) ∧
    ∀ (saved : SavedForwardState) (go : Tensor4) (i b c hh ww : Nat),
      (binWindow saved.in_size.2.2.1 saved.in_size.2.2.2
          (saved.rois.getD (decodeIdx saved.out_dim saved.outh saved.outw i).1 defaultRoi)
          saved.spatial_scale saved.outh saved.outw
          (decodeIdx saved.out_dim saved.outh saved.outw i).2.2.1
          (decodeIdx saved.out_dim saved.outh saved.outw i).2.2.2).empty = true →
      elemContrib saved go i b c hh ww = 0 := by
  constructor
  · simp [forwardElement, hemp]
  · intro saved go i b c hh ww hemp2
    simp only [elemContrib, hemp2]
    simp

/-- C6 witness: the region lying entirely outside the 4x4 feature map
clips every bin window to the empty window `[4,4) × [4,4)`; the forward
value of bin `(0,0)` is 0 with recorded channel `c_src = 0`, and the
matching backward element of the saved state of an actual forward call
contributes nothing. -/
theorem C6_empty_bin_witness :
    forwardElement (fmEx 4) roiFar 1 2 2 2 1 0 0 0 = (0, 0) ∧
    elemContrib (psRoI.forwardResult (fmEx 4) [roiFar] cfgEx).saved goEx 0 0 0 0 0 = 0 := by
  have h := C6_empty_bin (fmEx 4) roiFar 1 2 2 2 1 0 0 0
    (by norm_num [binWindow, BinWindow.empty, roiFar, round_eq, fmEx])
  refine ⟨h.1, h.2 _ goEx 0 0 0 0 0 ?_⟩
  norm_num [psRoI.forwardResult, binWindow, BinWindow.empty, roiFar, round_eq, fmEx,
    cfgEx, decodeIdx]
